import Mathlib

/-!
Verification development for the `ai-orchestrator` service (`main.py`).

The service's core is the `/extract` pipeline: model call → markdown-fence
sanitization → JSON recovery cascade (strict parse → brace extraction →
one repair re-query) → schema validation → `ExtractResponse`, with a
`/chat` endpoint that renders a recipe context prompt and returns model
prose.  The definitions below are a shallow embedding of that source:
JSON values are an inductive type, the (external) `json.loads` parser and
the (external) Gemini model client are parameters, Python coercions
(`str`, `int`, `.strip()`, `.lower()`, `in`) are modelled explicitly, and
Python exceptions are an explicit error type threaded through `Except`.
-/

/-- A parsed JSON value, as produced by `json.loads`: numbers are
restricted to integers (the pipeline only ever coerces them with `str()`
and `int()`), objects are key/value lists (later bindings shadow earlier
ones, matching `dict` construction with duplicate keys). -/
inductive Json where
  | null : Json
  | bool : Bool → Json
  | num : Int → Json
  | str : String → Json
  | arr : List Json → Json
  | obj : List (String × Json) → Json

mutual

/-- Decidable equality of JSON values (written by hand because `deriving`
does not handle the nested lists). -/
def jsonDecEq : (a b : Json) → Decidable (a = b)
  | .null, .null => .isTrue rfl
  | .null, .bool _ => .isFalse nofun
  | .null, .num _ => .isFalse nofun
  | .null, .str _ => .isFalse nofun
  | .null, .arr _ => .isFalse nofun
  | .null, .obj _ => .isFalse nofun
  | .bool _, .null => .isFalse nofun
  | .bool x, .bool y =>
    if h : x = y then .isTrue (h ▸ rfl) else .isFalse (fun c => h (Json.bool.inj c))
  | .bool _, .num _ => .isFalse nofun
  | .bool _, .str _ => .isFalse nofun
  | .bool _, .arr _ => .isFalse nofun
  | .bool _, .obj _ => .isFalse nofun
  | .num _, .null => .isFalse nofun
  | .num _, .bool _ => .isFalse nofun
  | .num x, .num y =>
    if h : x = y then .isTrue (h ▸ rfl) else .isFalse (fun c => h (Json.num.inj c))
  | .num _, .str _ => .isFalse nofun
  | .num _, .arr _ => .isFalse nofun
  | .num _, .obj _ => .isFalse nofun
  | .str _, .null => .isFalse nofun
  | .str _, .bool _ => .isFalse nofun
  | .str _, .num _ => .isFalse nofun
  | .str x, .str y =>
    if h : x = y then .isTrue (h ▸ rfl) else .isFalse (fun c => h (Json.str.inj c))
  | .str _, .arr _ => .isFalse nofun
  | .str _, .obj _ => .isFalse nofun
  | .arr _, .null => .isFalse nofun
  | .arr _, .bool _ => .isFalse nofun
  | .arr _, .num _ => .isFalse nofun
  | .arr _, .str _ => .isFalse nofun
  | .arr x, .arr y =>
    match jsonListDecEq x y with
    | .isTrue h => .isTrue (h ▸ rfl)
    | .isFalse h => .isFalse (fun c => h (Json.arr.inj c))
  | .arr _, .obj _ => .isFalse nofun
  | .obj _, .null => .isFalse nofun
  | .obj _, .bool _ => .isFalse nofun
  | .obj _, .num _ => .isFalse nofun
  | .obj _, .str _ => .isFalse nofun
  | .obj _, .arr _ => .isFalse nofun
  | .obj x, .obj y =>
    match jsonPairsDecEq x y with
    | .isTrue h => .isTrue (h ▸ rfl)
    | .isFalse h => .isFalse (fun c => h (Json.obj.inj c))

/-- Decidable equality of JSON value lists. -/
def jsonListDecEq : (a b : List Json) → Decidable (a = b)
  | [], [] => .isTrue rfl
  | [], _ :: _ => .isFalse nofun
  | _ :: _, [] => .isFalse nofun
  | x :: xs, y :: ys =>
    match jsonDecEq x y with
    | .isTrue h1 =>
      match jsonListDecEq xs ys with
      | .isTrue h2 => .isTrue (h1 ▸ h2 ▸ rfl)
      | .isFalse h2 => .isFalse (fun c => h2 (List.cons.inj c).2)
    | .isFalse h1 => .isFalse (fun c => h1 (List.cons.inj c).1)

/-- Decidable equality of JSON key/value lists. -/
def jsonPairsDecEq : (a b : List (String × Json)) → Decidable (a = b)
  | [], [] => .isTrue rfl
  | [], _ :: _ => .isFalse nofun
  | _ :: _, [] => .isFalse nofun
  | (k, v) :: xs, (k', v') :: ys =>
    if hk : k = k' then
      match jsonDecEq v v' with
      | .isTrue hv =>
        match jsonPairsDecEq xs ys with
        | .isTrue h2 => .isTrue (hk ▸ hv ▸ h2 ▸ rfl)
        | .isFalse h2 => .isFalse (fun c => h2 (List.cons.inj c).2)
      | .isFalse hv => .isFalse (fun c => hv (congrArg Prod.snd (List.cons.inj c).1))
    else .isFalse (fun c => hk (congrArg Prod.fst (List.cons.inj c).1))

end

instance : DecidableEq Json := jsonDecEq

/-- Python `dict` lookup on a key/value list: the last binding of a key
wins, matching how `json.loads` builds a `dict` from duplicate keys. -/
def jlookup : List (String × Json) → String → Option Json
  | [], _ => none
  | (k', v) :: rest, k =>
    match jlookup rest k with
    | some r => some r
    | none => if k' = k then some v else none

/-- The Python type name of a JSON value, as it appears in `TypeError`
and `AttributeError` messages. -/
def pyTypeName : Json → String
  | .null => "NoneType"
  | .bool _ => "bool"
  | .num _ => "int"
  | .str _ => "str"
  | .arr _ => "list"
  | .obj _ => "dict"

/-- Whether `needle` occurs as a contiguous substring of `hay` (Python's
`needle in hay` on strings, as lists of characters). -/
def occursIn (needle : List Char) : List Char → Bool
  | [] => needle.isEmpty
  | c :: rest => needle.isPrefixOf (c :: rest) || occursIn needle rest

/-- String-level wrapper for `occursIn`: Python `needle in hay`. -/
def strContains (hay needle : String) : Bool :=
  occursIn needle.data hay.data

/-- Python `str.lower()` (ASCII case folding suffices for every string
the pipeline lowercases). -/
def lowerStr (s : String) : String :=
  String.mk (s.data.map Char.toLower)

/-- The whitespace characters removed by Python `str.strip()` (the ASCII
subset, which covers every string the pipeline strips). -/
def pyIsSpace (c : Char) : Bool :=
  c = ' ' || c = '\t' || c = '\n' || c = '\r' || c = '\x0b' || c = '\x0c'

/-- Python `str.strip()` on a character list: drop whitespace from both
ends. -/
def pyStripL (l : List Char) : List Char :=
  (((l.dropWhile pyIsSpace).reverse.dropWhile pyIsSpace)).reverse

/-- Python `str.strip()` on strings. -/
def pyStripStr (s : String) : String :=
  String.mk (pyStripL s.data)

/-- One character of a Python string `repr`, approximated: backslash,
quote, newline, carriage return and tab are escaped, everything else is
kept verbatim. -/
def pyEscChar (c : Char) : String :=
  if c = '\\' then "\\\\"
  else if c = '\x27' then "\\\x27"
  else if c = '\n' then "\\n"
  else if c = '\r' then "\\r"
  else if c = '\t' then "\\t"
  else String.mk [c]

/-- Python `repr` of a string, approximated: always single-quoted, with
the common escapes. -/
def pyReprStr (s : String) : String :=
  "\x27" ++ String.join (s.data.map pyEscChar) ++ "\x27"

mutual

/-- Python `repr` of a JSON value (which is what `str()` produces on
lists and dicts). -/
def pyRepr : Json → String
  | .null => "None"
  | .bool b => if b then "True" else "False"
  | .num n => toString n
  | .str s => pyReprStr s
  | .arr l => "[" ++ pyReprList l ++ "]"
  | .obj kvs => "\x7b" ++ pyReprPairs kvs ++ "\x7d"

/-- Comma-joined `repr`s of list elements. -/
def pyReprList : List Json → String
  | [] => ""
  | [x] => pyRepr x
  | x :: y :: rest => pyRepr x ++ ", " ++ pyReprList (y :: rest)

/-- Comma-joined `repr`s of dict entries. -/
def pyReprPairs : List (String × Json) → String
  | [] => ""
  | [(k, v)] => pyReprStr k ++ ": " ++ pyRepr v
  | (k, v) :: p :: rest => pyReprStr k ++ ": " ++ pyRepr v ++ ", " ++ pyReprPairs (p :: rest)

end

/-- Python `str()` applied to a JSON value (`main.py` applies it to
`title`, `qty`, `unit`, `item` and `text`). -/
def pyStr : Json → String
  | .null => "None"
  | .bool b => if b then "True" else "False"
  | .num n => toString n
  | .str s => s
  | .arr l => pyRepr (.arr l)
  | .obj kvs => pyRepr (.obj kvs)

/-- A Python exception as the pipeline distinguishes them: `ValueError`
(which `pydantic.ValidationError` subclasses), `TypeError`,
`AttributeError`, and FastAPI's `HTTPException` carrying a status code
and detail. -/
inductive PyExc where
  | valueError (msg : String)
  | typeError (msg : String)
  | attributeError (msg : String)
  | httpException (status : Nat) (detail : String)
deriving DecidableEq

/-- Digit-string value, for Python `int()` on strings. -/
def digitsVal (l : List Char) : Nat :=
  l.foldl (fun a c => a * 10 + (c.toNat - 48)) 0

/-- Parse a non-empty all-digit character list. -/
def parseDigits (l : List Char) : Option Nat :=
  if l.isEmpty then none
  else if l.all (fun c => c.isDigit) then some (digitsVal l) else none

/-- Parse an optionally signed digit string. -/
def parseSignedDigits : List Char → Option Int
  | '+' :: rest => (parseDigits rest).map Int.ofNat
  | '-' :: rest => (parseDigits rest).map (fun n => -(Int.ofNat n : Int))
  | rest => (parseDigits rest).map Int.ofNat

/-- Python `int()` on a string: strip whitespace, then an optionally
signed decimal literal; anything else raises `ValueError`. -/
def pyIntOfStr (s : String) : Except PyExc Int :=
  match parseSignedDigits (pyStripL s.data) with
  | some n => .ok n
  | none => .error (.valueError ("invalid literal for int() with base 10: " ++ pyReprStr s))

/-- Python `int()` applied to a JSON value: ints pass through, bools map
to 0/1, strings are parsed, everything else raises `TypeError`. -/
def pyInt : Json → Except PyExc Int
  | .num n => .ok n
  | .bool b => .ok (if b then 1 else 0)
  | .str s => pyIntOfStr s
  | j => .error (.typeError ("int() argument must be a string, a bytes-like object or a real number, not \x27" ++ pyTypeName j ++ "\x27"))

/-- Leading-fence removal of `main.py` lines 181-184: drop a leading
"```json" (7 chars) or else a leading "```" (3 chars). -/
def stripFencePre (t : List Char) : List Char :=
  if ("```json".data).isPrefixOf t then t.drop 7
  else if ("```".data).isPrefixOf t then t.drop 3
  else t

/-- Trailing-fence removal of `main.py` lines 185-186: drop a trailing
"```" (`cleaned_content[:-3]`). -/
def stripFenceSuf (t : List Char) : List Char :=
  if ("```".data).isSuffixOf t then t.take (t.length - 3) else t

/-- The markdown-fence sanitizer of `main.py` lines 180-187: strip, drop
a leading fence, drop a trailing fence, strip again. -/
def sanitizeL (l : List Char) : List Char :=
  pyStripL (stripFenceSuf (stripFencePre (pyStripL l)))

/-- String-level sanitizer. -/
def sanitizeStr (s : String) : String :=
  String.mk (sanitizeL s.data)

/-- `re.search(r'\x7b.*\x7d', content, re.DOTALL)` of `main.py` line 193:
the greedy match runs from the first opening brace to the last closing
brace of the whole text (DOTALL makes `.` span newlines); no match when
no closing brace follows the first opening brace. -/
def braceExtract (l : List Char) : Option (List Char) :=
  match l.findIdx? (fun c => c = '{') with
  | none => none
  | some i =>
    match l.reverse.findIdx? (fun c => c = '}') with
    | none => none
    | some rj =>
      let j := l.length - 1 - rj
      if i < j then some ((l.drop i).take (j + 1 - i)) else none

/-- String-level brace extraction. -/
def braceExtractStr (s : String) : Option String :=
  (braceExtract s.data).map String.mk

/-- The JSON recovery cascade of `main.py` lines 178-211, parameterized
by the external `json.loads` (`jsonLoads`, whose error is the
`JSONDecodeError` text) and by the outcome of the repair-model call
(`repair`, the external Gemini client's response or exception text).
Returns the recovered candidate (or the raised exception) together with
the number of repair-model queries issued. -/
def jsonRecoveryCascade (jsonLoads : String → Except String Json)
    (content : String) (repair : Except String String) :
    Except PyExc Json × Nat :=
  match jsonLoads (sanitizeStr content) with
  | .ok j => (.ok j, 0)
  | .error e =>
    match braceExtractStr content with
    | some sub =>
      match jsonLoads sub with
      | .ok j => (.ok j, 0)
      | .error _ =>
        match repair with
        | .ok repairText =>
          match jsonLoads (pyStripStr repairText) with
          | .ok j => (.ok j, 1)
          | .error _ => (.error (.valueError ("Invalid JSON response after repair attempt: " ++ e)), 1)
        | .error _ => (.error (.valueError ("Invalid JSON response after repair attempt: " ++ e)), 1)
    | none => (.error (.valueError ("Invalid JSON response: " ++ e)), 0)

/-- An ingredient as returned to callers (`main.py` lines 51-54). -/
structure Ingredient where
  qty : String
  unit : String
  item : String
deriving DecidableEq

/-- A step as returned to callers (`main.py` lines 45-48). -/
structure Step where
  index : Int
  text : String
  timestamp_sec : Int
deriving DecidableEq

/-- The `/extract` response model (`main.py` lines 64-68). -/
structure ExtractResponse where
  title : String
  description : Option String
  ingredients : List Ingredient
  steps : List Step
deriving DecidableEq

/-- The empty-recipe short-circuit of `main.py` lines 227-233: when
either array is empty, look up `description` (defaulting to
"No recipe found in transcript"), call `.lower()` on it (an
`AttributeError` when the value is not a string), and raise a 422
`HTTPException` when it contains "error" or "no recipe". -/
def emptyRecipeCheck (descOpt : Option Json) (ingredientsList stepsList : List Json) :
    Except PyExc Unit :=
  if ingredientsList.isEmpty || stepsList.isEmpty then
    match descOpt.getD (.str "No recipe found in transcript") with
    | .str d =>
      if strContains (lowerStr d) "error" || strContains (lowerStr d) "no recipe" then
        .error (.httpException 422 ("Recipe extraction failed: " ++ d))
      else .ok ()
    | other => .error (.attributeError ("\x27" ++ pyTypeName other ++ "\x27 object has no attribute \x27lower\x27"))
  else .ok ()

/-- Per-ingredient validation loop of `main.py` lines 236-255 (the
`isinstance` re-check on the already-coerced strings is vacuous in the
source and is omitted); `i` is the 0-based position of the first list
element. -/
def validateIngredients : List Json → Nat → Except PyExc (List Ingredient)
  | [], _ => .ok []
  | ing :: rest, i =>
    match ing with
    | .obj ingKvs =>
      match jlookup ingKvs "qty", jlookup ingKvs "unit", jlookup ingKvs "item" with
      | some qtyVal, some unitVal, some itemVal =>
        let qty := pyStr qtyVal
        if qty = "" || pyStripStr qty = "" then
          .error (.valueError ("Ingredient " ++ toString (i + 1) ++ " qty must not be empty"))
        else
          match validateIngredients rest (i + 1) with
          | .error e => .error e
          | .ok vrest => .ok (⟨qty, pyStr unitVal, pyStr itemVal⟩ :: vrest)
      | _, _, _ => .error (.valueError ("Ingredient " ++ toString (i + 1) ++ " missing required fields (qty, unit, item)"))
    | _ => .error (.valueError ("Ingredient " ++ toString (i + 1) ++ " is not an object"))

/-- Per-step validation loop of `main.py` lines 257-268; `index` and
`timestamp_sec` go through Python `int()`, `text` through `str()`;
`timestamp_sec` is read with `.get(..., 0)` even though its presence was
just checked. -/
def validateSteps : List Json → Nat → Except PyExc (List Step)
  | [], _ => .ok []
  | step :: rest, i =>
    match step with
    | .obj stepKvs =>
      match jlookup stepKvs "index", jlookup stepKvs "text", jlookup stepKvs "timestamp_sec" with
      | some indexVal, some textVal, some _ =>
        match pyInt indexVal with
        | .error e => .error e
        | .ok idx =>
          match pyInt ((jlookup stepKvs "timestamp_sec").getD (.num 0)) with
          | .error e => .error e
          | .ok ts =>
            match validateSteps rest (i + 1) with
            | .error e => .error e
            | .ok vrest => .ok (⟨idx, pyStr textVal, ts⟩ :: vrest)
      | _, _, _ => .error (.valueError ("Step " ++ toString (i + 1) ++ " missing required fields"))
    | _ => .error (.valueError ("Step " ++ toString (i + 1) ++ " is not an object"))

/-- Pydantic validation of the `description: Optional[str]` field at
`ExtractResponse` construction (`main.py` line 272): `None`/absent and
strings pass, anything else raises `pydantic.ValidationError` (a
`ValueError`; message abbreviated). -/
def descField : Option Json → Except PyExc (Option String)
  | none => .ok none
  | some .null => .ok none
  | some (.str s) => .ok (some s)
  | some _ => .error (.valueError "1 validation error for ExtractResponse: description: Input should be a valid string")

/-- Validation of a parsed candidate that is a Python `dict`
(`main.py` lines 214-275). -/
def validateObj (kvs : List (String × Json)) : Except PyExc ExtractResponse :=
  match jlookup kvs "title" with
  | none => .error (.valueError "Missing \x27title\x27 in response")
  | some titleVal =>
    match jlookup kvs "ingredients" with
    | some (.arr ingredientsList) =>
      match jlookup kvs "steps" with
      | some (.arr stepsList) =>
        match emptyRecipeCheck (jlookup kvs "description") ingredientsList stepsList with
        | .error e => .error e
        | .ok _ =>
          match validateIngredients ingredientsList 0 with
          | .error e => .error e
          | .ok validatedIngredients =>
            match validateSteps stepsList 0 with
            | .error e => .error e
            | .ok validatedSteps =>
              match descField (jlookup kvs "description") with
              | .error e => .error e
              | .ok desc =>
                .ok { title := pyStr titleVal, description := desc,
                      ingredients := validatedIngredients, steps := validatedSteps }
      | _ => .error (.valueError "Missing or invalid \x27steps\x27 in response")
    | _ => .error (.valueError "Missing or invalid \x27ingredients\x27 in response")

/-- Validation and transformation of the parsed candidate
(`main.py` lines 214-275).  Non-`dict` candidates reproduce the Python
semantics of `"title" not in recipe_data` / `recipe_data["ingredients"]`
on that type: `in` is substring search on strings, element membership on
lists, and a `TypeError` on scalars; subscripting a string or list with
a string key is a `TypeError`. -/
def validateCandidate : Json → Except PyExc ExtractResponse
  | .obj kvs => validateObj kvs
  | .str s =>
    if !(strContains s "title") then .error (.valueError "Missing \x27title\x27 in response")
    else if !(strContains s "ingredients") then .error (.valueError "Missing or invalid \x27ingredients\x27 in response")
    else .error (.typeError "string indices must be integers")
  | .arr l =>
    if !(decide (Json.str "title" ∈ l)) then .error (.valueError "Missing \x27title\x27 in response")
    else if !(decide (Json.str "ingredients" ∈ l)) then .error (.valueError "Missing or invalid \x27ingredients\x27 in response")
    else .error (.typeError "list indices must be integers or slices, not str")
  | j => .error (.typeError ("argument of type \x27" ++ pyTypeName j ++ "\x27 is not iterable"))

/-- Whether the lowercased exception text contains "api" or "gemini"
(`main.py` lines 285-286 and 374-375). -/
def apiGemini (m : String) : Bool :=
  strContains (lowerStr m) "api" || strContains (lowerStr m) "gemini"

/-- The exception-to-status mapping of the `/extract` handler
(`main.py` lines 277-294): `ValueError` → 422, `HTTPException` passes
through, anything else → 503 when the text mentions api/gemini else
500. -/
def handleExtractErr : PyExc → Nat × String
  | .valueError m => (422, "Invalid response format: " ++ m)
  | .httpException status detail => (status, detail)
  | .typeError m =>
    if apiGemini m then (503, "Gemini API error: " ++ m) else (500, "Internal error: " ++ m)
  | .attributeError m =>
    if apiGemini m then (503, "Gemini API error: " ++ m) else (500, "Internal error: " ++ m)

/-- Decidable equality for `Except` results (not provided by core). -/
instance {ε α : Type} [DecidableEq ε] [DecidableEq α] : DecidableEq (Except ε α) := fun a b =>
  match a, b with
  | .ok x, .ok y =>
    if h : x = y then .isTrue (h ▸ rfl) else .isFalse (fun c => h (Except.ok.inj c))
  | .ok _, .error _ => .isFalse nofun
  | .error _, .ok _ => .isFalse nofun
  | .error x, .error y =>
    if h : x = y then .isTrue (h ▸ rfl) else .isFalse (fun c => h (Except.error.inj c))

/-- Outcome of one `/extract` request: the HTTP result plus how many
repair-model queries were issued. -/
structure ExtractRun where
  result : Except (Nat × String) ExtractResponse
  repairCalls : Nat
deriving DecidableEq

/-- The `/extract` endpoint body (`main.py` lines 149-294), with the two
external collaborators as inputs: `jsonLoads` is `json.loads`, `first`
is the initial Gemini call's outcome (response text or exception text,
`main.py` lines 166-175) and `repair` the repair call's outcome.  A
failed initial call is wrapped in `ValueError("Gemini API error: ...")`
and then classified by the handler. -/
def runExtract (jsonLoads : String → Except String Json)
    (first repair : Except String String) : ExtractRun :=
  match first with
  | .error e => ⟨.error (handleExtractErr (.valueError ("Gemini API error: " ++ e))), 0⟩
  | .ok content =>
    match jsonRecoveryCascade jsonLoads content repair with
    | (.error exc, n) => ⟨.error (handleExtractErr exc), n⟩
    | (.ok candidate, n) =>
      match validateCandidate candidate with
      | .ok r => ⟨.ok r, n⟩
      | .error exc => ⟨.error (handleExtractErr exc), n⟩

/-- Re-serialization of a returned `ExtractResponse` ingredient back to
JSON (field order follows the pydantic model declaration). -/
def serializeIngredient (ing : Ingredient) : Json :=
  .obj [("qty", .str ing.qty), ("unit", .str ing.unit), ("item", .str ing.item)]

/-- Re-serialization of a returned `ExtractResponse` step back to
JSON. -/
def serializeStep (st : Step) : Json :=
  .obj [("index", .num st.index), ("text", .str st.text), ("timestamp_sec", .num st.timestamp_sec)]

/-- Re-serialization of a returned `ExtractResponse` back to JSON, as
pydantic's model dump would produce it (absent description serializes as
`null`). -/
def serializeRecipe (r : ExtractResponse) : Json :=
  .obj [("title", .str r.title),
        ("description", match r.description with | some s => .str s | none => .null),
        ("ingredients", .arr (r.ingredients.map serializeIngredient)),
        ("steps", .arr (r.steps.map serializeStep))]

/-- A chat step (`main.py` lines 71-73): text plus an optional 1-indexed
step number. -/
structure ChatStep where
  text : String
  index : Option Int
deriving DecidableEq

/-- The `/chat` request model (`main.py` lines 76-83). -/
structure ChatRequest where
  recipe_id : String
  title : String
  description : Option String
  ingredients : List Ingredient
  steps : List ChatStep
  user_message : String
  current_step_index : Option Int

/-- The `/chat` response model (`main.py` lines 86-87). -/
structure ChatResponse where
  message : String
deriving DecidableEq

/-- The rendered ingredient lines of the chat context (`main.py` lines
320-323): each line is `f"- \x7bqty\x7d \x7bunit\x7d \x7bitem\x7d".strip()`. -/
def ingredientsText (ings : List Ingredient) : String :=
  String.intercalate "\n"
    (ings.map (fun ing => pyStripStr ("- " ++ ing.qty ++ " " ++ ing.unit ++ " " ++ ing.item)))

/-- The rendered numbered step lines of the chat context (`main.py`
lines 325-328): the step's own index when present, else the 1-based
enumeration position. -/
def stepsText (steps : List ChatStep) : String :=
  String.intercalate "\n"
    (steps.enum.map (fun p => toString (p.2.index.getD (Int.ofNat p.1 + 1)) ++ ". " ++ p.2.text))

/-- The current-step annotation (`main.py` lines 330-334): rendered only
when `current_step_index` is present and within `0 ≤ idx < len(steps)`;
otherwise the empty string. -/
def currentStepInfo (req : ChatRequest) : String :=
  match req.current_step_index with
  | none => ""
  | some idx =>
    if h : 0 ≤ idx ∧ idx < (req.steps.length : Int) then
      let cur := req.steps.get ⟨idx.toNat, by omega⟩
      "\n\nCurrent step: " ++ toString (cur.index.getD (idx + 1)) ++ ". " ++ cur.text
    else ""

/-- The optional description line (`main.py` line 336): rendered only
when the description is truthy (present and non-empty). -/
def descriptionText : Option String → String
  | some s => if s = "" then "" else "\n" ++ s
  | none => ""

/-- The chat context prompt (`main.py` lines 338-348). -/
def buildChatContext (req : ChatRequest) : String :=
  "Recipe: " ++ req.title ++ descriptionText req.description ++
  "\n\nIngredients:\n" ++ ingredientsText req.ingredients ++
  "\n\nSteps:\n" ++ stepsText req.steps ++ currentStepInfo req ++
  "\n\nUser question: " ++ req.user_message ++
  "\n\nAnswer concisely and practically. Base your answer ONLY on the recipe context above. If the question is about something not in this context, say so briefly."

/-- The exception-to-status mapping of the `/chat` handler (`main.py`
lines 366-383). -/
def handleChatErr : PyExc → Nat × String
  | .valueError m => (422, "Invalid request: " ++ m)
  | .httpException status detail => (status, detail)
  | .typeError m =>
    if apiGemini m then (503, "Gemini API error: " ++ m) else (500, "Internal error: " ++ m)
  | .attributeError m =>
    if apiGemini m then (503, "Gemini API error: " ++ m) else (500, "Internal error: " ++ m)

/-- The `/chat` endpoint body (`main.py` lines 314-383): build the
context prompt, call the model (outcome given as `modelResp`), strip the
response.  A failed model call is wrapped in
`ValueError("Gemini API error: ...")` and classified by the handler. -/
def runChat (modelResp : Except String String) (req : ChatRequest) :
    Except (Nat × String) ChatResponse :=
  let _prompt := buildChatContext req
  match modelResp with
  | .ok t => .ok ⟨pyStripStr t⟩
  | .error e => .error (handleChatErr (.valueError ("Gemini API error: " ++ e)))

/-- A `json.loads` oracle that rejects every input (the parse-failure
message is CPython's for non-JSON text). -/
def jlAlwaysFails : String → Except String Json := fun _ =>
  .error "Expecting value: line 1 column 1 (char 0)"

/-- A concrete chat request used to exercise the `/chat` handler. -/
def chatReqC1 : ChatRequest :=
  { recipe_id := "r1", title := "Soup", description := none,
    ingredients := [], steps := [], user_message := "hi",
    current_step_index := none }

/-- A `json.loads` oracle that accepts exactly the braced payload of the
spec's prose-wrapped example. -/
def jlSpecExample : String → Except String Json := fun s =>
  if s = "\x7b\"title\": \"T\"\x7d" then .ok (.obj [("title", .str "T")])
  else .error "Expecting value: line 1 column 1 (char 0)"

/-- The spec's own C9 example: `current_step_index = 10` with only three
steps. -/
def chatReqC9 : ChatRequest :=
  { recipe_id := "r2", title := "Stew", description := some "hearty",
    ingredients := [⟨"2", "cups", "beans"⟩],
    steps := [⟨"soak", some 1⟩, ⟨"boil", none⟩, ⟨"serve", some 3⟩],
    user_message := "next?", current_step_index := some 10 }

/-- An ingredients-array element that passes the per-ingredient checks:
an object with `qty`, `unit`, `item` present whose coerced `qty` is
non-empty after stripping. -/
def ingPasses (j : Json) : Prop :=
  ∃ kvs qv uv iv, j = Json.obj kvs ∧ jlookup kvs "qty" = some qv ∧
    jlookup kvs "unit" = some uv ∧ jlookup kvs "item" = some iv ∧
    pyStripStr (pyStr qv) ≠ ""

/-- The C6 witness candidate: one valid ingredient followed by one whose
`qty` is whitespace. -/
def c6GoodIng : Json := .obj [("qty", .str "1"), ("unit", .str ""), ("item", .str "rice")]

/-- The offending C6 witness ingredient. -/
def c6BadKvs : List (String × Json) := [("qty", .str "  "), ("unit", .str ""), ("item", .str "salt")]

/-- The C3 counterexample candidate: empty title, empty ingredients, a
benign description, one valid step. -/
def c3cex : Json :=
  .obj [("title", .str ""), ("description", .str "A tasty dish"),
        ("ingredients", .arr []),
        ("steps", .arr [.obj [("index", .num 1), ("text", .str "Boil water"), ("timestamp_sec", .num 0)]])]

/-- A `json.loads` oracle returning the C3 counterexample candidate. -/
def jlC3 : String → Except String Json := fun _ => .ok c3cex

/-- The C8 witness candidate: a fully valid one-ingredient, one-step
recipe. -/
def c8cex : Json :=
  .obj [("title", .str "T"), ("description", .null),
        ("ingredients", .arr [.obj [("qty", .str "1"), ("unit", .str "cup"), ("item", .str "rice")]]),
        ("steps", .arr [.obj [("index", .num 1), ("text", .str "cook"), ("timestamp_sec", .num 5)]])]

/-- C1: the claim says a failed model call is surfaced as 503 at every
call site; in the code the call is wrapped in
`ValueError("Gemini API error: ...")`, which the `except ValueError`
arm maps to 422 — on the initial extract call, on a model failure during
the repair retry, and on the chat call alike.  This theorem evaluates
the three sites. -/
theorem c1_model_failure_surfaced_as_422 :
    (runExtract jlAlwaysFails (.error "network timeout") (.ok "x")).result
      = .error (422, "Invalid response format: Gemini API error: network timeout") ∧
    (runExtract jlAlwaysFails (.ok "x \x7b y \x7d z") (.error "connection reset")).result
      = .error (422, "Invalid response format: Invalid JSON response after repair attempt: Expecting value: line 1 column 1 (char 0)") ∧
    (runExtract jlAlwaysFails (.ok "x \x7b y \x7d z") (.error "connection reset")).repairCalls = 1 ∧
    runChat (.error "quota exceeded") chatReqC1
      = .error (422, "Invalid request: Gemini API error: quota exceeded") := by
  refine ⟨rfl, ?_, rfl, rfl⟩
  decide

/-- C2 counterexample: when the raw model text contains no brace
substring at all, the pipeline fails immediately with zero repair
queries, refuting "exactly one repair model query is issued ...
including the case where the raw text contains no brace substring". -/
theorem c2_counterexample :
    (runExtract jlAlwaysFails (.ok "hello there") (.ok "x")).repairCalls = 0 ∧
    (runExtract jlAlwaysFails (.ok "hello there") (.ok "x")).result
      = .error (422, "Invalid response format: Invalid JSON response: Expecting value: line 1 column 1 (char 0)") := by
  exact ⟨rfl, by decide⟩

/-- C2 amended: when strict parse fails, exactly one repair query is
issued if a brace substring exists and its parse also fails; when no
brace substring exists the pipeline fails at once with zero repair
queries. -/
theorem c2_amended_repair_count (jsonLoads : String → Except String Json)
    (raw : String) (repair : Except String String) (e : String)
    (hstrict : jsonLoads (sanitizeStr raw) = .error e) :
    (braceExtractStr raw = none →
      jsonRecoveryCascade jsonLoads raw repair
        = (.error (.valueError ("Invalid JSON response: " ++ e)), 0)) ∧
    (∀ sub e2, braceExtractStr raw = some sub → jsonLoads sub = .error e2 →
      (jsonRecoveryCascade jsonLoads raw repair).2 = 1) := by
  constructor
  · intro hb
    simp [jsonRecoveryCascade, hstrict, hb]
  · intro sub e2 hb hp
    cases repair with
    | error e3 => simp [jsonRecoveryCascade, hstrict, hb, hp]
    | ok rt =>
      cases hr : jsonLoads (pyStripStr rt) with
      | ok j => simp [jsonRecoveryCascade, hstrict, hb, hp, hr]
      | error e4 => simp [jsonRecoveryCascade, hstrict, hb, hp, hr]

/-- Witness for `c2_amended_repair_count` at a concrete input with a
failing brace substring. -/
theorem c2_amended_repair_count_witness :
    jlAlwaysFails (sanitizeStr "x \x7b y \x7d z") = .error "Expecting value: line 1 column 1 (char 0)" ∧
    braceExtractStr "x \x7b y \x7d z" = some "\x7b y \x7d" ∧
    (jsonRecoveryCascade jlAlwaysFails "x \x7b y \x7d z" (.ok "still bad")).2 = 1 := by
  refine ⟨rfl, by decide, ?_⟩
  exact (c2_amended_repair_count jlAlwaysFails "x \x7b y \x7d z" (.ok "still bad") _ rfl).2
    "\x7b y \x7d" "Expecting value: line 1 column 1 (char 0)" (by decide) rfl

/-- C5: when the sanitized text fails the strict parse but the brace
substring of the original raw text parses, the cascade succeeds with
that value and no repair query is issued. -/
theorem c5_brace_extraction_recovers (jsonLoads : String → Except String Json)
    (raw sub : String) (repair : Except String String) (e : String) (v : Json)
    (hstrict : jsonLoads (sanitizeStr raw) = .error e)
    (hbrace : braceExtractStr raw = some sub)
    (hparse : jsonLoads sub = .ok v) :
    jsonRecoveryCascade jsonLoads raw repair = (.ok v, 0) := by
  simp [jsonRecoveryCascade, hstrict, hbrace, hparse]

/-- Witness for `c5_brace_extraction_recovers` on the spec's
prose-wrapped example. -/
theorem c5_brace_extraction_recovers_witness :
    jlSpecExample (sanitizeStr "Sure! \x7b\"title\": \"T\"\x7d Hope that helps.")
      = .error "Expecting value: line 1 column 1 (char 0)" ∧
    braceExtractStr "Sure! \x7b\"title\": \"T\"\x7d Hope that helps." = some "\x7b\"title\": \"T\"\x7d" ∧
    jlSpecExample "\x7b\"title\": \"T\"\x7d" = .ok (.obj [("title", .str "T")]) ∧
    jsonRecoveryCascade jlSpecExample "Sure! \x7b\"title\": \"T\"\x7d Hope that helps." (.ok "x")
      = (.ok (.obj [("title", .str "T")]), 0) := by
  refine ⟨by decide, by decide, by decide, ?_⟩
  exact c5_brace_extraction_recovers jlSpecExample
    "Sure! \x7b\"title\": \"T\"\x7d Hope that helps." "\x7b\"title\": \"T\"\x7d" (.ok "x")
    "Expecting value: line 1 column 1 (char 0)" (.obj [("title", .str "T")])
    (by decide) (by decide) (by decide)

/-- C9: an out-of-range `current_step_index` (including negative) makes
the rendered chat context identical to the one with no current step, and
the request still succeeds when the model call succeeds. -/
theorem c9_out_of_range_step_omitted (req : ChatRequest) (idx : Int)
    (hidx : req.current_step_index = some idx)
    (hout : ¬(0 ≤ idx ∧ idx < (req.steps.length : Int))) :
    buildChatContext req = buildChatContext { req with current_step_index := none } ∧
    ∀ m, runChat (.ok m) req = .ok ⟨pyStripStr m⟩ := by
  have h1 : currentStepInfo req = "" := by
    unfold currentStepInfo
    rw [hidx]
    exact dif_neg hout
  have h2 : currentStepInfo { req with current_step_index := none } = "" := rfl
  constructor
  · unfold buildChatContext
    rw [h1, h2]
  · intro m
    rfl

/-- Witness for `c9_out_of_range_step_omitted` at the spec's example. -/
theorem c9_out_of_range_step_omitted_witness :
    chatReqC9.current_step_index = some 10 ∧
    ¬(0 ≤ (10 : Int) ∧ (10 : Int) < (chatReqC9.steps.length : Int)) ∧
    (buildChatContext chatReqC9 = buildChatContext { chatReqC9 with current_step_index := none } ∧
      ∀ m, runChat (.ok m) chatReqC9 = .ok ⟨pyStripStr m⟩) := by
  refine ⟨rfl, by decide, ?_⟩
  exact c9_out_of_range_step_omitted chatReqC9 10 rfl (by decide)

/-- C4: when `ingredients` or `steps` is empty and the effective
description (defaulting to "No recipe found in transcript" when absent)
case-insensitively contains "error" or "no recipe", validation fails
with the dedicated 422 `HTTPException` ("Recipe extraction failed: ...")
— a classification distinct from the `ValueError`-based structural
errors — before any per-item validation runs (the theorem holds for
arbitrary contents of the other array). -/
theorem c4_extraction_declined (kvs : List (String × Json)) (titleVal : Json)
    (li ls : List Json) (d : String)
    (htitle : jlookup kvs "title" = some titleVal)
    (hing : jlookup kvs "ingredients" = some (.arr li))
    (hsteps : jlookup kvs "steps" = some (.arr ls))
    (hempty : li = [] ∨ ls = [])
    (hdesc : (jlookup kvs "description").getD (.str "No recipe found in transcript") = .str d)
    (hsignal : strContains (lowerStr d) "error" = true ∨ strContains (lowerStr d) "no recipe" = true) :
    validateCandidate (.obj kvs) = .error (.httpException 422 ("Recipe extraction failed: " ++ d)) ∧
    handleExtractErr (.httpException 422 ("Recipe extraction failed: " ++ d))
      = (422, "Recipe extraction failed: " ++ d) := by
  have hemp : (li.isEmpty || ls.isEmpty) = true := by
    rcases hempty with h | h <;> subst h <;> simp
  have hsig : (strContains (lowerStr d) "error" || strContains (lowerStr d) "no recipe") = true := by
    rcases hsignal with h | h <;> simp [h]
  have hcheck : emptyRecipeCheck (jlookup kvs "description") li ls
      = .error (.httpException 422 ("Recipe extraction failed: " ++ d)) := by
    simp [emptyRecipeCheck, hemp, hdesc, hsig]
  constructor
  · show validateObj kvs = _
    simp only [validateObj, htitle, hing, hsteps, hcheck]
  · rfl

/-- Witness for `c4_extraction_declined`: empty `ingredients`, absent
description (so the default fires), and a garbage steps array that would
not survive per-item validation. -/
theorem c4_extraction_declined_witness :
    jlookup [("title", Json.str "T"), ("ingredients", Json.arr []),
      ("steps", Json.arr [Json.num 5])] "title" = some (Json.str "T") ∧
    validateCandidate (.obj [("title", Json.str "T"), ("ingredients", Json.arr []),
      ("steps", Json.arr [Json.num 5])])
      = .error (.httpException 422 "Recipe extraction failed: No recipe found in transcript") := by
  refine ⟨by decide, ?_⟩
  have := c4_extraction_declined
    [("title", Json.str "T"), ("ingredients", Json.arr []), ("steps", Json.arr [Json.num 5])]
    (Json.str "T") [] [Json.num 5] "No recipe found in transcript"
    (by decide) (by decide) (by decide) (Or.inl rfl) (by decide) (Or.inr (by decide))
  exact this.1

/-- C10: when `ingredients` or `steps` is empty and `description` is
present but not a string, the `.lower()` call raises `AttributeError`,
which the catch-all handler (whose message contains neither "api" nor
"gemini") maps to 500 "Internal error", not to the 422 classifications. -/
theorem c10_nonstring_description_internal_error (kvs : List (String × Json))
    (titleVal : Json) (li ls : List Json) (d : Json)
    (htitle : jlookup kvs "title" = some titleVal)
    (hing : jlookup kvs "ingredients" = some (.arr li))
    (hsteps : jlookup kvs "steps" = some (.arr ls))
    (hempty : li = [] ∨ ls = [])
    (hdesc : jlookup kvs "description" = some d)
    (hnotstr : ∀ s, d ≠ Json.str s) :
    validateCandidate (.obj kvs)
      = .error (.attributeError ("\x27" ++ pyTypeName d ++ "\x27 object has no attribute \x27lower\x27")) ∧
    handleExtractErr (.attributeError ("\x27" ++ pyTypeName d ++ "\x27 object has no attribute \x27lower\x27"))
      = (500, "Internal error: " ++ ("\x27" ++ pyTypeName d ++ "\x27 object has no attribute \x27lower\x27")) := by
  have hemp : (li.isEmpty || ls.isEmpty) = true := by
    rcases hempty with h | h <;> subst h <;> simp
  have hcheck : emptyRecipeCheck (jlookup kvs "description") li ls
      = .error (.attributeError ("\x27" ++ pyTypeName d ++ "\x27 object has no attribute \x27lower\x27")) := by
    cases d with
    | str s => exact absurd rfl (hnotstr s)
    | null => simp [emptyRecipeCheck, hemp, hdesc, pyTypeName]
    | bool b => simp [emptyRecipeCheck, hemp, hdesc, pyTypeName]
    | num n => simp [emptyRecipeCheck, hemp, hdesc, pyTypeName]
    | arr l => simp [emptyRecipeCheck, hemp, hdesc, pyTypeName]
    | obj o => simp [emptyRecipeCheck, hemp, hdesc, pyTypeName]
  have hty : pyTypeName d = "NoneType" ∨ pyTypeName d = "bool" ∨ pyTypeName d = "int" ∨
      pyTypeName d = "list" ∨ pyTypeName d = "dict" := by
    cases d with
    | str s => exact absurd rfl (hnotstr s)
    | null => exact Or.inl rfl
    | bool b => exact Or.inr (Or.inl rfl)
    | num n => exact Or.inr (Or.inr (Or.inl rfl))
    | arr l => exact Or.inr (Or.inr (Or.inr (Or.inl rfl)))
    | obj o => exact Or.inr (Or.inr (Or.inr (Or.inr rfl)))
  have hapi : apiGemini ("\x27" ++ pyTypeName d ++ "\x27 object has no attribute \x27lower\x27") = false := by
    rcases hty with h | h | h | h | h <;> rw [h] <;> decide
  constructor
  · show validateObj kvs = _
    simp only [validateObj, htitle, hing, hsteps, hcheck]
  · simp [handleExtractErr, hapi]

/-- Witness for `c10_nonstring_description_internal_error` with a null
description. -/
theorem c10_nonstring_description_internal_error_witness :
    jlookup [("title", Json.str "T"), ("description", Json.null),
      ("ingredients", Json.arr []), ("steps", Json.arr [Json.null])] "description" = some Json.null ∧
    validateCandidate (.obj [("title", Json.str "T"), ("description", Json.null),
      ("ingredients", Json.arr []), ("steps", Json.arr [Json.null])])
      = .error (.attributeError "\x27NoneType\x27 object has no attribute \x27lower\x27") ∧
    handleExtractErr (.attributeError "\x27NoneType\x27 object has no attribute \x27lower\x27")
      = (500, "Internal error: \x27NoneType\x27 object has no attribute \x27lower\x27") := by
  refine ⟨by decide, ?_⟩
  exact c10_nonstring_description_internal_error
    [("title", Json.str "T"), ("description", Json.null),
      ("ingredients", Json.arr []), ("steps", Json.arr [Json.null])]
    (Json.str "T") [] [Json.null] Json.null
    (by decide) (by decide) (by decide) (Or.inl rfl) (by decide) (fun s => by simp)

/-- The ingredient loop rejects the first element whose stripped `qty`
is empty, naming its 1-indexed position. -/
theorem validateIngredients_first_empty_qty (good : List Json) (n : Nat)
    (badKvs : List (String × Json)) (qv uv iv : Json) (rest : List Json)
    (hgood : ∀ x ∈ good, ingPasses x)
    (hq : jlookup badKvs "qty" = some qv)
    (hu : jlookup badKvs "unit" = some uv)
    (hi' : jlookup badKvs "item" = some iv)
    (hqe : pyStripStr (pyStr qv) = "") :
    validateIngredients (good ++ Json.obj badKvs :: rest) n
      = .error (.valueError ("Ingredient " ++ toString (n + good.length + 1) ++ " qty must not be empty")) := by
  induction good generalizing n with
  | nil =>
    simp [validateIngredients, hq, hu, hi', hqe]
  | cons x good' ih =>
    obtain ⟨kvs', qv', uv', iv', rfl, hq', hu', hi2, hne⟩ := hgood x (by simp)
    have h1 : pyStr qv' ≠ "" := fun h => hne (by rw [h]; rfl)
    have hrec := ih (n + 1) (fun y hy => hgood y (by simp [hy]))
    have harith : n + 1 + good'.length + 1 = n + (good'.length + 1) + 1 := by omega
    rw [harith] at hrec
    simp [validateIngredients, hq', hu', hi2, h1, hne, hrec]

/-- C6: with non-empty `ingredients` and `steps` arrays, an ingredient
whose coerced `qty` is empty after trimming (all earlier ingredients
passing) fails the whole request with the `ValueError`-based structural
error naming the 1-indexed position, which the handler maps to 422; no
recipe is returned. -/
theorem c6_empty_qty_rejected (kvs : List (String × Json)) (titleVal : Json)
    (good : List Json) (badKvs : List (String × Json)) (qv uv iv : Json)
    (rest ls : List Json)
    (htitle : jlookup kvs "title" = some titleVal)
    (hing : jlookup kvs "ingredients" = some (.arr (good ++ Json.obj badKvs :: rest)))
    (hsteps : jlookup kvs "steps" = some (.arr ls))
    (hlsne : ls ≠ [])
    (hgood : ∀ x ∈ good, ingPasses x)
    (hq : jlookup badKvs "qty" = some qv)
    (hu : jlookup badKvs "unit" = some uv)
    (hi' : jlookup badKvs "item" = some iv)
    (hqe : pyStripStr (pyStr qv) = "") :
    validateCandidate (.obj kvs)
      = .error (.valueError ("Ingredient " ++ toString (good.length + 1) ++ " qty must not be empty")) ∧
    handleExtractErr (.valueError ("Ingredient " ++ toString (good.length + 1) ++ " qty must not be empty"))
      = (422, "Invalid response format: " ++ ("Ingredient " ++ toString (good.length + 1) ++ " qty must not be empty")) := by
  have hemp : ((good ++ Json.obj badKvs :: rest).isEmpty || ls.isEmpty) = false := by
    simp [List.isEmpty_iff, List.append_eq_nil, hlsne]
  have hcheck : emptyRecipeCheck (jlookup kvs "description") (good ++ Json.obj badKvs :: rest) ls
      = .ok () := by
    simp [emptyRecipeCheck, hemp]
  have hloop := validateIngredients_first_empty_qty good 0 badKvs qv uv iv rest hgood hq hu hi' hqe
  rw [show 0 + good.length + 1 = good.length + 1 from by omega] at hloop
  constructor
  · show validateObj kvs = _
    simp only [validateObj, htitle, hing, hsteps, hcheck, hloop]
  · rfl

/-- Witness for `c6_empty_qty_rejected`: the second ingredient is
rejected by name. -/
theorem c6_empty_qty_rejected_witness :
    pyStripStr (pyStr (Json.str "  ")) = "" ∧
    validateCandidate (.obj [("title", Json.str "T"),
      ("ingredients", Json.arr ([c6GoodIng] ++ Json.obj c6BadKvs :: [])),
      ("steps", Json.arr [Json.obj [("index", Json.num 1), ("text", Json.str "cook"), ("timestamp_sec", Json.num 2)]])])
      = .error (.valueError ("Ingredient " ++ toString ([c6GoodIng].length + 1) ++ " qty must not be empty")) ∧
    ("Ingredient " ++ toString ([c6GoodIng].length + 1) ++ " qty must not be empty")
      = "Ingredient 2 qty must not be empty" := by
  refine ⟨rfl, ?_, by decide⟩
  have := c6_empty_qty_rejected
    [("title", Json.str "T"),
      ("ingredients", Json.arr ([c6GoodIng] ++ Json.obj c6BadKvs :: [])),
      ("steps", Json.arr [Json.obj [("index", Json.num 1), ("text", Json.str "cook"), ("timestamp_sec", Json.num 2)]])]
    (Json.str "T") [c6GoodIng] c6BadKvs (Json.str "  ") (Json.str "") (Json.str "salt") []
    [Json.obj [("index", Json.num 1), ("text", Json.str "cook"), ("timestamp_sec", Json.num 2)]]
    (by decide) (by decide) (by decide) (by simp)
    (by
      intro x hx
      have hx1 : x = c6GoodIng := by simpa using hx
      subst hx1
      exact ⟨[("qty", Json.str "1"), ("unit", Json.str ""), ("item", Json.str "rice")],
        Json.str "1", Json.str "", Json.str "rice", rfl, by decide, by decide, by decide, by decide⟩)
    (by decide) (by decide) (by decide) rfl
  exact this.1

/-- Every ingredient in a successfully validated list has a `qty` that
is non-empty after stripping. -/
theorem validateIngredients_ok_qty {l : List Json} {n : Nat} {vl : List Ingredient}
    (h : validateIngredients l n = .ok vl) :
    ∀ ing ∈ vl, pyStripStr ing.qty ≠ "" := by
  induction l generalizing n vl with
  | nil =>
    simp only [validateIngredients] at h
    obtain rfl := Except.ok.inj h
    simp
  | cons x rest ih =>
    unfold validateIngredients at h
    split at h
    case _ ingKvs =>
      split at h
      case _ qv uv iv hq hu hi'' =>
        split at h
        case _ e herr =>
          simp only [Bool.or_eq_true, decide_eq_true_eq] at h
          split at h <;> exact Except.noConfusion h
        case _ vrest hrest =>
          simp only [Bool.or_eq_true, decide_eq_true_eq] at h
          split at h
          · exact Except.noConfusion h
          case _ hcond =>
            obtain rfl := Except.ok.inj h
            intro ing hing
            rcases List.mem_cons.1 hing with hh | ht
            · subst hh
              exact (not_or.1 hcond).2
            · exact ih hrest ing ht
      case _ => exact absurd h (by simp)
    case _ => exact absurd h (by simp)

/-- Successful ingredient validation preserves the list length. -/
theorem validateIngredients_ok_length {l : List Json} {n : Nat} {vl : List Ingredient}
    (h : validateIngredients l n = .ok vl) : vl.length = l.length := by
  induction l generalizing n vl with
  | nil =>
    simp only [validateIngredients] at h
    obtain rfl := Except.ok.inj h
    rfl
  | cons x rest ih =>
    unfold validateIngredients at h
    split at h
    case _ ingKvs =>
      split at h
      case _ qv uv iv hq hu hi'' =>
        split at h
        case _ e herr =>
          simp only [Bool.or_eq_true, decide_eq_true_eq] at h
          split at h <;> exact Except.noConfusion h
        case _ vrest hrest =>
          simp only [Bool.or_eq_true, decide_eq_true_eq] at h
          split at h
          · exact Except.noConfusion h
          case _ hcond =>
            obtain rfl := Except.ok.inj h
            simp [ih hrest]
      case _ => exact absurd h (by simp)
    case _ => exact absurd h (by simp)

/-- Successful step validation preserves the list length. -/
theorem validateSteps_ok_length {l : List Json} {n : Nat} {vl : List Step}
    (h : validateSteps l n = .ok vl) : vl.length = l.length := by
  induction l generalizing n vl with
  | nil =>
    simp only [validateSteps] at h
    obtain rfl := Except.ok.inj h
    rfl
  | cons x rest ih =>
    unfold validateSteps at h
    split at h
    case _ stepKvs =>
      split at h
      case _ indexVal textVal tsVal hidx htxt hts =>
        split at h
        case _ e herr => exact absurd h (by simp)
        case _ idx hok =>
          split at h
          case _ e herr => exact absurd h (by simp)
          case _ ts hok2 =>
            split at h
            case _ e herr => exact absurd h (by simp)
            case _ vrest hrest =>
              obtain rfl := Except.ok.inj h
              simp [ih hrest]
      case _ => exact absurd h (by simp)
    case _ => exact absurd h (by simp)

/-- Inversion of a successful dict validation: all stages succeeded and
the response's fields are exactly their outputs. -/
theorem validateObj_ok_inv {kvs : List (String × Json)} {r : ExtractResponse}
    (h : validateObj kvs = .ok r) :
    ∃ titleVal li ls,
      jlookup kvs "title" = some titleVal ∧
      jlookup kvs "ingredients" = some (.arr li) ∧
      jlookup kvs "steps" = some (.arr ls) ∧
      emptyRecipeCheck (jlookup kvs "description") li ls = .ok () ∧
      validateIngredients li 0 = .ok r.ingredients ∧
      validateSteps ls 0 = .ok r.steps ∧
      descField (jlookup kvs "description") = .ok r.description ∧
      r.title = pyStr titleVal := by
  unfold validateObj at h
  split at h
  · exact absurd h (by simp)
  case _ titleVal htitle =>
    split at h
    case _ li hing =>
      split at h
      case _ ls hsteps =>
        split at h
        case _ e hcheck => exact absurd h (by simp)
        case _ u hcheck =>
          split at h
          case _ e herr => exact absurd h (by simp)
          case _ vi hvi =>
            split at h
            case _ e herr => exact absurd h (by simp)
            case _ vs hvs =>
              split at h
              case _ e herr => exact absurd h (by simp)
              case _ d hdesc =>
                obtain rfl := Except.ok.inj h
                exact ⟨titleVal, li, ls, htitle, hing, hsteps, by cases u; exact hcheck,
                  hvi, hvs, hdesc, rfl⟩
      case _ => exact absurd h (by simp)
    case _ => exact absurd h (by simp)

/-- A successful validation forces the candidate to be a dict. -/
theorem validateCandidate_ok_obj {c : Json} {r : ExtractResponse}
    (h : validateCandidate c = .ok r) :
    ∃ kvs, c = .obj kvs ∧ validateObj kvs = .ok r := by
  cases c with
  | obj kvs => exact ⟨kvs, rfl, h⟩
  | null => exact absurd h (by simp [validateCandidate])
  | bool b => exact absurd h (by simp [validateCandidate])
  | num n => exact absurd h (by simp [validateCandidate])
  | str s =>
    simp only [validateCandidate] at h
    split at h
    · exact Except.noConfusion h
    · split at h <;> exact Except.noConfusion h
  | arr l =>
    simp only [validateCandidate] at h
    split at h
    · exact Except.noConfusion h
    · split at h <;> exact Except.noConfusion h

/-- If the empty-recipe check passes although one of the arrays is
empty, the description was present as a string containing neither
"error" nor "no recipe" (case-insensitively). -/
theorem emptyRecipeCheck_ok_empty {descOpt : Option Json} {li ls : List Json}
    (h : emptyRecipeCheck descOpt li ls = .ok ()) (hemp : li = [] ∨ ls = []) :
    ∃ d, descOpt = some (.str d) ∧
      strContains (lowerStr d) "error" = false ∧
      strContains (lowerStr d) "no recipe" = false := by
  have hb : (li.isEmpty || ls.isEmpty) = true := by
    rcases hemp with rfl | rfl <;> simp
  unfold emptyRecipeCheck at h
  rw [if_pos hb] at h
  cases descOpt with
  | none => exact absurd h (by decide)
  | some d =>
    cases d with
    | str s =>
      simp only [Option.getD_some] at h
      split at h
      · exact Except.noConfusion h
      case _ hsig =>
        have hsig' := hsig
        simp only [Bool.or_eq_true, not_or, Bool.not_eq_true] at hsig'
        exact ⟨s, rfl, hsig'.1, hsig'.2⟩
    | null => exact Except.noConfusion h
    | bool b => exact Except.noConfusion h
    | num n => exact Except.noConfusion h
    | arr l => exact Except.noConfusion h
    | obj o => exact Except.noConfusion h

/-- C3 counterexample: the extract pipeline returns a Recipe with an
empty ingredients list (and an empty title) when the description is
benign, refuting "no request ever returns a Recipe with an empty
ingredients list or an empty steps list" and the non-empty-title part of
full validity. -/
theorem c3_counterexample :
    (runExtract jlC3 (.ok "model output") (.ok "unused")).result
      = .ok ⟨"", some "A tasty dish", [], [⟨1, "Boil water", 0⟩]⟩ := by
  decide

/-- C3 amended: a returned Recipe is correctly typed and every returned
ingredient has a non-empty trimmed `qty`, but the title may be empty and
the ingredients or steps list may be empty — the latter exactly when the
candidate's description was a string containing neither "error" nor
"no recipe". -/
theorem c3_amended_validity (c : Json) (r : ExtractResponse)
    (h : validateCandidate c = .ok r) :
    (∀ ing ∈ r.ingredients, pyStripStr ing.qty ≠ "") ∧
    ((r.ingredients = [] ∨ r.steps = []) →
      ∃ d, r.description = some d ∧
        strContains (lowerStr d) "error" = false ∧
        strContains (lowerStr d) "no recipe" = false) := by
  obtain ⟨kvs, rfl, hobj⟩ := validateCandidate_ok_obj h
  obtain ⟨titleVal, li, ls, htitle, hing, hsteps, hcheck, hvi, hvs, hdesc, htit⟩ :=
    validateObj_ok_inv hobj
  constructor
  · exact validateIngredients_ok_qty hvi
  · intro hemp
    have hemp' : li = [] ∨ ls = [] := by
      rcases hemp with he | he
      · left
        have hlen := validateIngredients_ok_length hvi
        rw [he] at hlen
        exact List.length_eq_zero.1 hlen.symm
      · right
        have hlen := validateSteps_ok_length hvs
        rw [he] at hlen
        exact List.length_eq_zero.1 hlen.symm
    obtain ⟨d, hd, h1, h2⟩ := emptyRecipeCheck_ok_empty hcheck hemp'
    rw [hd] at hdesc
    have hdr : r.description = some d := by
      simpa [descField] using hdesc.symm
    exact ⟨d, hdr, h1, h2⟩

/-- Witness for `c3_amended_validity` at the C3 counterexample
candidate. -/
theorem c3_amended_validity_witness :
    validateCandidate c3cex = .ok ⟨"", some "A tasty dish", [], [⟨1, "Boil water", 0⟩]⟩ ∧
    ((∀ ing ∈ (⟨"", some "A tasty dish", [], [⟨1, "Boil water", 0⟩]⟩ : ExtractResponse).ingredients,
        pyStripStr ing.qty ≠ "") ∧
      (((⟨"", some "A tasty dish", [], [⟨1, "Boil water", 0⟩]⟩ : ExtractResponse).ingredients = [] ∨
          (⟨"", some "A tasty dish", [], [⟨1, "Boil water", 0⟩]⟩ : ExtractResponse).steps = []) →
        ∃ d, (⟨"", some "A tasty dish", [], [⟨1, "Boil water", 0⟩]⟩ : ExtractResponse).description = some d ∧
          strContains (lowerStr d) "error" = false ∧
          strContains (lowerStr d) "no recipe" = false)) := by
  refine ⟨by decide, ?_⟩
  exact c3_amended_validity c3cex ⟨"", some "A tasty dish", [], [⟨1, "Boil water", 0⟩]⟩ (by decide)

/-- `str()` on an already-string value is the identity. -/
theorem pyStr_str (s : String) : pyStr (.str s) = s := rfl

/-- Re-validating the serialized form of a successfully validated
ingredient list succeeds with the same values. -/
theorem validateIngredients_roundtrip {l : List Json} {n : Nat} {vl : List Ingredient}
    (h : validateIngredients l n = .ok vl) :
    validateIngredients (vl.map serializeIngredient) n = .ok vl := by
  induction l generalizing n vl with
  | nil =>
    simp only [validateIngredients] at h
    obtain rfl := Except.ok.inj h
    simp [validateIngredients]
  | cons x rest ih =>
    unfold validateIngredients at h
    split at h
    case _ ingKvs =>
      split at h
      case _ qv uv iv hq hu hi'' =>
        split at h
        case _ e herr =>
          simp only [Bool.or_eq_true, decide_eq_true_eq] at h
          split at h <;> exact Except.noConfusion h
        case _ vrest hrest =>
          simp only [Bool.or_eq_true, decide_eq_true_eq] at h
          split at h
          · exact Except.noConfusion h
          case _ hcond =>
            obtain rfl := Except.ok.inj h
            have h1 : pyStr qv ≠ "" := (not_or.1 hcond).1
            have h2 : pyStripStr (pyStr qv) ≠ "" := (not_or.1 hcond).2
            have ihr := ih hrest
            simp [validateIngredients, serializeIngredient, jlookup, pyStr_str, h1, h2, ihr]
      case _ => exact absurd h (by simp)
    case _ => exact absurd h (by simp)

/-- Re-validating the serialized form of a successfully validated step
list succeeds with the same values. -/
theorem validateSteps_roundtrip {l : List Json} {n : Nat} {vl : List Step}
    (h : validateSteps l n = .ok vl) :
    validateSteps (vl.map serializeStep) n = .ok vl := by
  induction l generalizing n vl with
  | nil =>
    simp only [validateSteps] at h
    obtain rfl := Except.ok.inj h
    simp [validateSteps]
  | cons x rest ih =>
    unfold validateSteps at h
    split at h
    case _ stepKvs =>
      split at h
      case _ indexVal textVal tsVal hidx htxt hts =>
        split at h
        case _ e herr => exact absurd h (by simp)
        case _ idx hok =>
          split at h
          case _ e herr => exact absurd h (by simp)
          case _ ts hok2 =>
            split at h
            case _ e herr => exact absurd h (by simp)
            case _ vrest hrest =>
              obtain rfl := Except.ok.inj h
              have ihr := ih hrest
              simp [validateSteps, serializeStep, jlookup, pyStr_str, pyInt, ihr]
      case _ => exact absurd h (by simp)
    case _ => exact absurd h (by simp)

/-- C8 round-trip: re-serializing a Recipe the pipeline returned and
running the schema validator on the result succeeds with identical field
values. -/
theorem c8_roundtrip (c : Json) (r : ExtractResponse)
    (h : validateCandidate c = .ok r) :
    validateCandidate (serializeRecipe r) = .ok r := by
  obtain ⟨kvs, rfl, hobj⟩ := validateCandidate_ok_obj h
  obtain ⟨titleVal, li, ls, htitle, hing, hsteps, hcheck, hvi, hvs, hdescf, htit⟩ :=
    validateObj_ok_inv hobj
  obtain ⟨rt, rd, ri, rs⟩ := r
  simp only at hvi hvs hdescf htit
  have hvi' := validateIngredients_roundtrip hvi
  have hvs' := validateSteps_roundtrip hvs
  have hemp' : (ri = [] ∨ rs = []) → (li = [] ∨ ls = []) := by
    intro hne
    rcases hne with he | he
    · left
      have hlen := validateIngredients_ok_length hvi
      rw [he] at hlen
      exact List.length_eq_zero.1 hlen.symm
    · right
      have hlen := validateSteps_ok_length hvs
      rw [he] at hlen
      exact List.length_eq_zero.1 hlen.symm
  cases rd with
  | none =>
    have hcheck' : emptyRecipeCheck (some Json.null)
        (ri.map serializeIngredient) (rs.map serializeStep) = .ok () := by
      by_cases hne : ri = [] ∨ rs = []
      · obtain ⟨d, hd, h1, h2⟩ := emptyRecipeCheck_ok_empty hcheck (hemp' hne)
        rw [hd] at hdescf
        simp [descField] at hdescf
      · push_neg at hne
        have hb : ((ri.map serializeIngredient).isEmpty || (rs.map serializeStep).isEmpty) = false := by
          simp [List.isEmpty_iff, List.map_eq_nil_iff, hne.1, hne.2]
        unfold emptyRecipeCheck
        rw [if_neg (by simp [hb])]
    have hl1 : jlookup [("title", Json.str rt), ("description", Json.null),
        ("ingredients", Json.arr (ri.map serializeIngredient)),
        ("steps", Json.arr (rs.map serializeStep))] "title" = some (Json.str rt) := by
      simp [jlookup]
    have hl2 : jlookup [("title", Json.str rt), ("description", Json.null),
        ("ingredients", Json.arr (ri.map serializeIngredient)),
        ("steps", Json.arr (rs.map serializeStep))] "description" = some Json.null := by
      simp [jlookup]
    have hl3 : jlookup [("title", Json.str rt), ("description", Json.null),
        ("ingredients", Json.arr (ri.map serializeIngredient)),
        ("steps", Json.arr (rs.map serializeStep))] "ingredients"
        = some (Json.arr (ri.map serializeIngredient)) := by
      simp [jlookup]
    have hl4 : jlookup [("title", Json.str rt), ("description", Json.null),
        ("ingredients", Json.arr (ri.map serializeIngredient)),
        ("steps", Json.arr (rs.map serializeStep))] "steps"
        = some (Json.arr (rs.map serializeStep)) := by
      simp [jlookup]
    simp only [serializeRecipe, validateCandidate]
    simp only [validateObj, hl1, hl2, hl3, hl4, hcheck', hvi', hvs', descField, pyStr_str]
  | some d0 =>
    have hcheck' : emptyRecipeCheck (some (Json.str d0))
        (ri.map serializeIngredient) (rs.map serializeStep) = .ok () := by
      by_cases hne : ri = [] ∨ rs = []
      · obtain ⟨d, hd, h1, h2⟩ := emptyRecipeCheck_ok_empty hcheck (hemp' hne)
        rw [hd] at hdescf
        simp only [descField, Except.ok.injEq, Option.some.injEq] at hdescf
        subst hdescf
        have hb : ((ri.map serializeIngredient).isEmpty || (rs.map serializeStep).isEmpty) = true := by
          rcases hne with rfl | rfl <;> simp
        unfold emptyRecipeCheck
        rw [if_pos hb]
        simp [h1, h2]
      · push_neg at hne
        have hb : ((ri.map serializeIngredient).isEmpty || (rs.map serializeStep).isEmpty) = false := by
          simp [List.isEmpty_iff, List.map_eq_nil_iff, hne.1, hne.2]
        unfold emptyRecipeCheck
        rw [if_neg (by simp [hb])]
    have hl1 : jlookup [("title", Json.str rt), ("description", Json.str d0),
        ("ingredients", Json.arr (ri.map serializeIngredient)),
        ("steps", Json.arr (rs.map serializeStep))] "title" = some (Json.str rt) := by
      simp [jlookup]
    have hl2 : jlookup [("title", Json.str rt), ("description", Json.str d0),
        ("ingredients", Json.arr (ri.map serializeIngredient)),
        ("steps", Json.arr (rs.map serializeStep))] "description" = some (Json.str d0) := by
      simp [jlookup]
    have hl3 : jlookup [("title", Json.str rt), ("description", Json.str d0),
        ("ingredients", Json.arr (ri.map serializeIngredient)),
        ("steps", Json.arr (rs.map serializeStep))] "ingredients"
        = some (Json.arr (ri.map serializeIngredient)) := by
      simp [jlookup]
    have hl4 : jlookup [("title", Json.str rt), ("description", Json.str d0),
        ("ingredients", Json.arr (ri.map serializeIngredient)),
        ("steps", Json.arr (rs.map serializeStep))] "steps"
        = some (Json.arr (rs.map serializeStep)) := by
      simp [jlookup]
    simp only [serializeRecipe, validateCandidate]
    simp only [validateObj, hl1, hl2, hl3, hl4, hcheck', hvi', hvs', descField, pyStr_str]

/-- Witness for `c8_roundtrip` at a concrete recipe. -/
theorem c8_roundtrip_witness :
    validateCandidate c8cex = .ok ⟨"T", none, [⟨"1", "cup", "rice"⟩], [⟨1, "cook", 5⟩]⟩ ∧
    validateCandidate (serializeRecipe ⟨"T", none, [⟨"1", "cup", "rice"⟩], [⟨1, "cook", 5⟩]⟩)
      = .ok ⟨"T", none, [⟨"1", "cup", "rice"⟩], [⟨1, "cook", 5⟩]⟩ := by
  refine ⟨by decide, ?_⟩
  exact c8_roundtrip c8cex ⟨"T", none, [⟨"1", "cup", "rice"⟩], [⟨1, "cook", 5⟩]⟩ (by decide)

/-- Contiguous-substring containment composes. -/
theorem contiguous_trans {x y z : List Char}
    (h1 : ∃ a b, a ++ x ++ b = y) (h2 : ∃ c d, c ++ y ++ d = z) :
    ∃ e f, e ++ x ++ f = z := by
  obtain ⟨a, b, rfl⟩ := h1
  obtain ⟨c, d, rfl⟩ := h2
  exact ⟨c ++ a, b ++ d, by simp [List.append_assoc]⟩

/-- The stripped list together with the removed ends reassembles the
trailing part of the original. -/
theorem pyStripL_front_decomp (l : List Char) :
    pyStripL l ++ ((l.dropWhile pyIsSpace).reverse.takeWhile pyIsSpace).reverse
      = l.dropWhile pyIsSpace := by
  have h2 := List.takeWhile_append_dropWhile (p := pyIsSpace)
    (l := (l.dropWhile pyIsSpace).reverse)
  calc pyStripL l ++ ((l.dropWhile pyIsSpace).reverse.takeWhile pyIsSpace).reverse
      = ((l.dropWhile pyIsSpace).reverse.takeWhile pyIsSpace
          ++ (l.dropWhile pyIsSpace).reverse.dropWhile pyIsSpace).reverse := by
        rw [List.reverse_append]
        rfl
    _ = ((l.dropWhile pyIsSpace).reverse).reverse := by rw [h2]
    _ = l.dropWhile pyIsSpace := List.reverse_reverse _

/-- `strip` returns a contiguous substring of its input. -/
theorem pyStripL_contiguous (l : List Char) :
    ∃ pre post, pre ++ pyStripL l ++ post = l := by
  refine ⟨l.takeWhile pyIsSpace,
    ((l.dropWhile pyIsSpace).reverse.takeWhile pyIsSpace).reverse, ?_⟩
  conv_rhs => rw [← List.takeWhile_append_dropWhile (p := pyIsSpace) (l := l)]
  rw [List.append_assoc]
  congr 1
  exact pyStripL_front_decomp l

/-- Leading-fence removal returns a contiguous substring of its
input. -/
theorem stripFencePre_contiguous (t : List Char) :
    ∃ pre post, pre ++ stripFencePre t ++ post = t := by
  unfold stripFencePre
  split
  · exact ⟨t.take 7, [], by simp⟩
  split
  · exact ⟨t.take 3, [], by simp⟩
  · exact ⟨[], [], by simp⟩

/-- Trailing-fence removal returns a contiguous substring of its
input. -/
theorem stripFenceSuf_contiguous (t : List Char) :
    ∃ pre post, pre ++ stripFenceSuf t ++ post = t := by
  unfold stripFenceSuf
  split
  · exact ⟨[], t.drop (t.length - 3), by simp⟩
  · exact ⟨[], [], by simp⟩

/-- The sanitizer never alters interior content: its output is a
contiguous substring of its input. -/
theorem sanitizeL_contiguous (l : List Char) :
    ∃ pre post, pre ++ sanitizeL l ++ post = l := by
  unfold sanitizeL
  exact contiguous_trans
    (contiguous_trans
      (contiguous_trans (pyStripL_contiguous _) (stripFenceSuf_contiguous _))
      (stripFencePre_contiguous _))
    (pyStripL_contiguous l)

/-- `dropWhile` is idempotent. -/
theorem dropWhile_twice {α : Type} (p : α → Bool) (l : List α) :
    (l.dropWhile p).dropWhile p = l.dropWhile p := by
  cases h : l.dropWhile p with
  | nil => rfl
  | cons a t =>
    have hh := List.head?_dropWhile_not p l
    rw [h] at hh
    simp only [List.head?_cons] at hh
    rw [List.dropWhile_cons_of_neg (by simp [hh])]

/-- A prefix of a `dropWhile`-fixed list is itself `dropWhile`-fixed. -/
theorem dropWhile_prefix_self {α : Type} (p : α → Bool) {b t l : List α}
    (hl : l.dropWhile p = l) (hbt : b ++ t = l) : b.dropWhile p = b := by
  cases b with
  | nil => rfl
  | cons a bs =>
    have ha : p a = false := by
      subst hbt
      by_contra hpa
      rw [Bool.not_eq_false] at hpa
      rw [List.cons_append, List.dropWhile_cons_of_pos hpa] at hl
      have hle := (List.dropWhile_sublist (l := bs ++ t) p).length_le
      rw [hl] at hle
      simp only [List.length_cons] at hle
      omega
    rw [List.dropWhile_cons_of_neg (by simp [ha])]

/-- `strip` is idempotent. -/
theorem pyStripL_idem (l : List Char) : pyStripL (pyStripL l) = pyStripL l := by
  have hA : (l.dropWhile pyIsSpace).dropWhile pyIsSpace = l.dropWhile pyIsSpace :=
    dropWhile_twice _ _
  have hB1 : (pyStripL l).dropWhile pyIsSpace = pyStripL l :=
    dropWhile_prefix_self _ hA (pyStripL_front_decomp l)
  have hrev : (pyStripL l).reverse = (l.dropWhile pyIsSpace).reverse.dropWhile pyIsSpace := by
    unfold pyStripL
    rw [List.reverse_reverse]
  have hB2 : ((pyStripL l).reverse).dropWhile pyIsSpace = (pyStripL l).reverse := by
    rw [hrev]
    exact dropWhile_twice _ _
  calc pyStripL (pyStripL l)
      = (((pyStripL l).dropWhile pyIsSpace).reverse.dropWhile pyIsSpace).reverse := rfl
    _ = (((pyStripL l).reverse).dropWhile pyIsSpace).reverse := by rw [hB1]
    _ = ((pyStripL l).reverse).reverse := by rw [hB2]
    _ = pyStripL l := List.reverse_reverse _

/-- Sanitizer output is already stripped. -/
theorem sanitizeL_stripped (l : List Char) : pyStripL (sanitizeL l) = sanitizeL l := by
  unfold sanitizeL
  exact pyStripL_idem _

/-- C7 counterexample: one sanitizer application peels only one fence
layer, so re-applying it to its own output is not a no-op — refuting
idempotence. -/
theorem c7_counterexample :
    sanitizeStr (sanitizeStr "```\n```hi```\n```") ≠ sanitizeStr "```\n```hi```\n```" := by
  decide

/-- C7 amended: the sanitizer is total and never alters interior content
(its output is a contiguous substring of its input), and re-applying it
is a no-op whenever its output no longer starts or ends with a
triple-backtick fence; it is not idempotent on nested fences. -/
theorem c7_amended_sanitizer (s : String)
    (h1 : ("```".data).isPrefixOf (sanitizeStr s).data = false)
    (h2 : ("```".data).isSuffixOf (sanitizeStr s).data = false) :
    (∃ pre post, pre ++ (sanitizeStr s).data ++ post = s.data) ∧
    sanitizeStr (sanitizeStr s) = sanitizeStr s := by
  have h1' : ("```".data).isPrefixOf (sanitizeL s.data) = false := h1
  have h2' : ("```".data).isSuffixOf (sanitizeL s.data) = false := h2
  constructor
  · exact sanitizeL_contiguous s.data
  · have hstr : pyStripL (sanitizeL s.data) = sanitizeL s.data := sanitizeL_stripped s.data
    have hjson : ("```json".data).isPrefixOf (sanitizeL s.data) = false := by
      by_contra hj
      rw [Bool.not_eq_false] at hj
      obtain ⟨t0, ht0⟩ := List.isPrefixOf_iff_prefix.1 hj
      have h3 : ("```".data).isPrefixOf (sanitizeL s.data) = true := by
        rw [List.isPrefixOf_iff_prefix]
        refine ⟨"json".data ++ t0, ?_⟩
        rw [← List.append_assoc]
        rw [show ("```".data ++ "json".data : List Char) = "```json".data from by decide]
        exact ht0
      rw [h3] at h1'
      exact Bool.noConfusion h1'
    have hpre : stripFencePre (sanitizeL s.data) = sanitizeL s.data := by
      unfold stripFencePre
      simp [hjson, h1']
    have hsuf : stripFenceSuf (sanitizeL s.data) = sanitizeL s.data := by
      unfold stripFenceSuf
      simp [h2']
    have key : sanitizeL (sanitizeL s.data) = sanitizeL s.data := by
      conv_lhs => rw [sanitizeL.eq_def]
      rw [hstr, hpre, hsuf, hstr]
    unfold sanitizeStr
    rw [show (String.mk (sanitizeL s.data)).data = sanitizeL s.data from rfl, key]

/-- Witness for `c7_amended_sanitizer` on fence-free input. -/
theorem c7_amended_sanitizer_witness :
    ("```".data).isPrefixOf (sanitizeStr "Sure thing").data = false ∧
    ("```".data).isSuffixOf (sanitizeStr "Sure thing").data = false ∧
    ((∃ pre post, pre ++ (sanitizeStr "Sure thing").data ++ post = "Sure thing".data) ∧
      sanitizeStr (sanitizeStr "Sure thing") = sanitizeStr "Sure thing") := by
  refine ⟨by decide, by decide, ?_⟩
  exact c7_amended_sanitizer "Sure thing" (by decide) (by decide)
